import Mathlib

/-
Verification of the navigation and concurrency engine of the honeybadger-io
command line interface (the TUI subsystem in tui/app.go and the view files).

The embedding mirrors the Go source:
  - App            -> AppState (navStack, pages, header text, stopped flag,
                      lifecycle token modelled as a Bool ctxCanceled)
  - tview.Pages    -> an ordered list of named pages with visibility flags,
                      with AddPage / SwitchToPage / RemovePage semantics
  - View interface -> a record carrying Name, the rendered primitive
                      (an opaque widget id), a data buffer and HandleInput
  - the input-capture closure in setupLayout -> App.dispatch
  - the goroutine body spawned by App.Push   -> runRefreshTask, a function of
    the three sampled values of the lifecycle token and the refresh outcome,
    returning whether Refresh was invoked plus the list of UI effects
  - FaultsView.Refresh / ProjectsView.Refresh -> functions of the fetch
    outcome, mirroring the early-return-on-error structure of the Go code.
-/

namespace HB

/-- Key codes, mirroring the tcell key constants the dispatcher inspects.
runeKey stands for tcell.KeyRune (a printable character key); otherKey for
any other special key not named in the switch. -/
inductive KeyCode where
  | escape
  | left
  | ctrlC
  | enter
  | right
  | runeKey
  | otherKey
deriving DecidableEq, Repr

/-- A tcell key event: the key code plus the rune payload (0 for non-rune
keys, as tcell delivers them). -/
structure KeyEvent where
  key : KeyCode
  ch : Char
deriving DecidableEq, Repr

/-- A render surface: either the primitive of a view (identified by an
opaque widget id) or one of the two modals the controller creates. -/
inductive Surface where
  | widget (id : Nat)
  | errorModal (text : String)
  | helpModal
deriving DecidableEq, Repr

/-- One entry of the tview.Pages registry: name, primitive, visibility. -/
structure Page where
  name : String
  surface : Surface
  visible : Bool
deriving DecidableEq, Repr

/-- Remove the first page with the given name (the loop-and-break in
tview Pages.RemovePage and the deduplication loop in AddPage). -/
def removeFirstPage : List Page → String → List Page
  | [], _ => []
  | p :: ps, n => if p.name = n then ps else p :: removeFirstPage ps n

/-- tview Pages.AddPage: delete any existing page with this name, then
append the new page at the end with the requested visibility. -/
def addPage (ps : List Page) (n : String) (s : Surface) (vis : Bool) : List Page :=
  removeFirstPage ps n ++ [{ name := n, surface := s, visible := vis }]

/-- tview Pages.SwitchToPage: the named page becomes visible, all other
pages become invisible. -/
def switchToPage (ps : List Page) (n : String) : List Page :=
  ps.map (fun p => { p with visible := p.name = n })

/-- tview Pages.RemovePage: remove the first page with this name. -/
def removePage (ps : List Page) (n : String) : List Page :=
  removeFirstPage ps n

/-- The surface currently shown frontmost: tview draws visible pages in
list order, so the last visible page is on top. -/
def frontSurface (ps : List Page) : Option Surface :=
  ((ps.filter (fun p => p.visible)).getLast?).map Page.surface

/-- The View interface of tui/app.go. Name and Render are modelled as data
(render is the opaque widget id of the primitive the view returns, buf is
the data buffer of last-loaded records held by the concrete view);
HandleInput is the function of the event that the view returns to the
dispatcher (nil = consumed). -/
structure View where
  name : String
  renderId : Nat
  buf : List String
  handleInput : KeyEvent → Option KeyEvent

/-- A RefreshTask description: the goroutine spawned by App.Push targets
exactly one view. -/
structure RefreshTask where
  target : View

/-- UI effects a refresh goroutine can hand to the UI thread: the
QueueUpdateDraw closure that shows the error modal, or a Draw request. -/
inductive UIEffect where
  | queueShowError (msg : String)
  | draw
deriving DecidableEq, Repr

/-- The App struct of tui/app.go, restricted to the fields the navigation
engine reads and writes: the navigation stack, the pages registry, the
header text, whether tview Application.Stop was called, and whether the
lifecycle context has been cancelled. -/
structure AppState where
  navStack : List View
  pages : List Page
  headerText : String
  stopped : Bool
  ctxCanceled : Bool

/-- The breadcrumb string built by App.updateHeader: the Name of every
view on the stack, in stack order, joined by the separator. -/
def breadcrumb (stack : List View) : String :=
  String.intercalate (" > ") (stack.map View.name)

/-- The constant part of the header line in App.updateHeader. -/
def headerLead : String := " [yellow]Honeybadger[white] │ "

/-- App.updateHeader: recompute the header text from the stack. -/
def App.updateHeader (a : AppState) : AppState :=
  { a with headerText := headerLead ++ breadcrumb a.navStack }

/-- The page name fmt.Sprintf("page-%d", n) used by Push and Pop. -/
def pageName (n : Nat) : String := "page-" ++ toString n

/-- App.Push: append the view to the stack, register and switch to its
page, recompute the header, and spawn one refresh goroutine for the view
(returned as the task list, here always a singleton). -/
def App.Push (a : AppState) (v : View) : AppState × List RefreshTask :=
  let stack1 := a.navStack ++ [v]
  let pn := pageName stack1.length
  let pages1 := switchToPage (addPage a.pages pn (Surface.widget v.renderId) true) pn
  (App.updateHeader { a with navStack := stack1, pages := pages1 },
   [{ target := v }])

/-- App.Pop: return unchanged when the stack has at most one element;
otherwise remove the page of the top view, drop the top of the stack,
switch to the page of the new top, recompute the header. No refresh
goroutine is spawned (the task list is empty). -/
def App.Pop (a : AppState) : AppState × List RefreshTask :=
  if a.navStack.length ≤ 1 then (a, [])
  else
    let pages1 := removePage a.pages (pageName a.navStack.length)
    let stack1 := a.navStack.dropLast
    let pages2 := switchToPage pages1 (pageName stack1.length)
    (App.updateHeader { a with navStack := stack1, pages := pages2 }, [])

/-- App.ShowError: add the dismissible error modal page on top. -/
def App.ShowError (a : AppState) (msg : String) : AppState :=
  { a with pages := addPage a.pages ("error") (Surface.errorModal ("Error: " ++ msg)) true }

/-- The done callback of the error modal: remove the error page. -/
def App.dismissError (a : AppState) : AppState :=
  { a with pages := removePage a.pages ("error") }

/-- App.ShowHelp: add the help modal page on top. -/
def App.ShowHelp (a : AppState) : AppState :=
  { a with pages := addPage a.pages ("help") Surface.helpModal true }

/-- The done callback of the help modal: remove the help page. -/
def App.dismissHelp (a : AppState) : AppState :=
  { a with pages := removePage a.pages ("help") }

/-- The result of one run of the input-capture closure: the new state, the
event value returned to tview (none = consumed), whether the event was
forwarded to HandleInput of the top view, and whether Refresh of the top
view was invoked synchronously inside the closure. -/
structure DispatchResult where
  state : AppState
  returned : Option KeyEvent
  forwarded : Bool
  refreshCalled : Bool

/-- The rune switch of the input-capture closure (the second switch in
setupLayout): q quits or pops, r refreshes the current view synchronously
and shows a modal on error, ? shows help, anything else is forwarded to
the top view. The refresh outcome of the data client is the oracle
argument o (none = success). -/
def App.runeSwitch (a : AppState) (e : KeyEvent) (o : Option String) : DispatchResult :=
  if e.ch = 'q' then
    if 1 < a.navStack.length then
      { state := (App.Pop a).1, returned := none, forwarded := false, refreshCalled := false }
    else
      { state := { a with stopped := true }, returned := none, forwarded := false,
        refreshCalled := false }
  else if e.ch = 'r' then
    if 0 < a.navStack.length then
      { state := match o with
                 | some msg => App.ShowError a msg
                 | none => a,
        returned := none, forwarded := false, refreshCalled := true }
    else
      { state := a, returned := none, forwarded := false, refreshCalled := false }
  else if e.ch = '?' then
    { state := App.ShowHelp a, returned := none, forwarded := false, refreshCalled := false }
  else
    match a.navStack.getLast? with
    | some v =>
        { state := a, returned := v.handleInput e, forwarded := true, refreshCalled := false }
    | none =>
        { state := a, returned := some e, forwarded := false, refreshCalled := false }

/-- The input-capture closure installed in setupLayout. The first switch
inspects the key code: Escape and Left pop only when the stack is deeper
than one (otherwise control falls through to the rune switch); Ctrl+C
stops the application unconditionally. -/
def App.dispatch (a : AppState) (e : KeyEvent) (o : Option String) : DispatchResult :=
  match e.key with
  | KeyCode.escape =>
      if 1 < a.navStack.length then
        { state := (App.Pop a).1, returned := none, forwarded := false, refreshCalled := false }
      else App.runeSwitch a e o
  | KeyCode.left =>
      if 1 < a.navStack.length then
        { state := (App.Pop a).1, returned := none, forwarded := false, refreshCalled := false }
      else App.runeSwitch a e o
  | KeyCode.ctrlC =>
      { state := { a with stopped := true }, returned := none, forwarded := false,
        refreshCalled := false }
  | _ => App.runeSwitch a e o

/-- The body of the goroutine spawned by App.Push. The arguments c0, c1,
c2 are the values of the lifecycle token at its three sample points (the
select on ctx.Done before starting, before queueing the error modal, and
before the final Draw); res is the outcome of view.Refresh (none =
success). The first component records whether Refresh was invoked; the
second lists the UI effects handed to the UI thread. -/
def runRefreshTask (c0 c1 c2 : Bool) (res : Option String) : Bool × List UIEffect :=
  if c0 then (false, [])
  else
    (true,
      match res with
      | some msg =>
          if c1 then []
          else UIEffect.queueShowError msg :: (if c2 then [] else [UIEffect.draw])
      | none => if c2 then [] else [UIEffect.draw])

/-- Applying a delivered UI effect to the application state on the UI
thread: the queued closure shows the error modal; Draw repaints without
changing the modelled state. -/
def applyUIEffect (a : AppState) : UIEffect → AppState
  | UIEffect.queueShowError msg => App.ShowError a msg
  | UIEffect.draw => a

/-- Fold App.Push over a list of views. -/
def pushAll (a : AppState) (vs : List View) : AppState :=
  vs.foldl (fun s v => (App.Push s v).1) a

/-- The state built by NewApp: empty stack, empty pages, empty header. -/
def initialState : AppState :=
  { navStack := [], pages := [], headerText := "", stopped := false, ctxCanceled := false }

/-- HandleInput of the root accounts view (tui/accounts.go): j/k table
navigation and h back-navigation consume the event, the select keys
(Enter, Right, l) consume it, anything else is returned unconsumed. -/
def accountsHandleInput (e : KeyEvent) : Option KeyEvent :=
  if e.ch = 'j' ∨ e.ch = 'k' then none
  else if e.ch = 'h' then none
  else if e.key = KeyCode.enter ∨ e.key = KeyCode.right ∨ e.ch = 'l' then none
  else some e

/-- The root accounts view pushed by App.Run at startup. -/
def accountsView : View :=
  { name := "Accounts", renderId := 0, buf := [], handleInput := accountsHandleInput }

/-- The state right after App.Run pushed the root view. -/
def startState : AppState := (App.Push initialState accountsView).1

/-- One atomic state change of the running application: a key event
handled by the input-capture closure, a push or pop issued by a view
(drill-down selection, h back-navigation), delivery of a queued UI effect
from a refresh goroutine, dismissal of one of the modals, or the
cancellation of the lifecycle context when App.Run returns. -/
inductive Step : AppState → AppState → Prop where
  | key (a : AppState) (e : KeyEvent) (o : Option String) :
      Step a (App.dispatch a e o).state
  | pushView (a : AppState) (v : View) : Step a (App.Push a v).1
  | popView (a : AppState) : Step a (App.Pop a).1
  | deliver (a : AppState) (eff : UIEffect) : Step a (applyUIEffect a eff)
  | dismissErr (a : AppState) : Step a (App.dismissError a)
  | dismissHlp (a : AppState) : Step a (App.dismissHelp a)
  | cancelCtx (a : AppState) : Step a { a with ctxCanceled := true }

/-- States reachable from the startup state through any sequence of
steps. -/
inductive Reachable : AppState → Prop where
  | start : Reachable startState
  | step {a b : AppState} : Reachable a → Step a b → Reachable b

theorem App.Push_fst_navStack (a : AppState) (v : View) :
    ((App.Push a v).1).navStack = a.navStack ++ [v] := rfl

theorem App.Push_fst_headerText (a : AppState) (v : View) :
    ((App.Push a v).1).headerText = headerLead ++ breadcrumb (a.navStack ++ [v]) := rfl

theorem App.Push_snd (a : AppState) (v : View) :
    (App.Push a v).2 = [{ target := v }] := rfl

theorem App.Pop_of_le (a : AppState) (h : a.navStack.length ≤ 1) :
    App.Pop a = (a, []) := by
  unfold App.Pop
  simp [h]

theorem App.Pop_fst_navStack (a : AppState) (h : 1 < a.navStack.length) :
    (App.Pop a).1.navStack = a.navStack.dropLast := by
  unfold App.Pop
  rw [if_neg (by omega)]
  rfl

theorem App.Pop_fst_headerText (a : AppState) (h : 1 < a.navStack.length) :
    (App.Pop a).1.headerText = headerLead ++ breadcrumb a.navStack.dropLast := by
  unfold App.Pop
  rw [if_neg (by omega)]
  rfl

theorem App.Pop_snd (a : AppState) : (App.Pop a).2 = [] := by
  unfold App.Pop
  split <;> rfl

theorem App.ShowError_navStack (a : AppState) (m : String) :
    (App.ShowError a m).navStack = a.navStack := rfl

theorem App.ShowHelp_navStack (a : AppState) :
    (App.ShowHelp a).navStack = a.navStack := rfl

theorem App.Pop_navStack_length (a : AppState) :
    a.navStack.length ≤ (App.Pop a).1.navStack.length + 1 := by
  unfold App.Pop
  split
  · simp
  · simp [App.updateHeader, List.length_dropLast]
    omega

/-- The navigation stack after one run of the rune switch: either
untouched or the result of a pop. -/
theorem App.runeSwitch_navStack (a : AppState) (e : KeyEvent) (o : Option String) :
    (App.runeSwitch a e o).state.navStack = a.navStack ∨
    (App.runeSwitch a e o).state.navStack = (App.Pop a).1.navStack := by
  unfold App.runeSwitch
  repeat' split
  all_goals simp [App.ShowError_navStack, App.ShowHelp_navStack]

/-- The navigation stack after one run of the input-capture closure:
either untouched or the result of a pop. -/
theorem App.dispatch_navStack (a : AppState) (e : KeyEvent) (o : Option String) :
    (App.dispatch a e o).state.navStack = a.navStack ∨
    (App.dispatch a e o).state.navStack = (App.Pop a).1.navStack := by
  unfold App.dispatch
  repeat' split
  all_goals first
    | exact App.runeSwitch_navStack a e o
    | simp

theorem applyUIEffect_navStack (a : AppState) (eff : UIEffect) :
    (applyUIEffect a eff).navStack = a.navStack := by
  cases eff <;> rfl

/-- Every single step keeps the navigation stack nonempty. -/
theorem Step.navStack_pos {a b : AppState} (s : Step a b)
    (h : 0 < a.navStack.length) : 0 < b.navStack.length := by
  cases s with
  | key e o =>
      rcases App.dispatch_navStack a e o with hc | hc <;> rw [hc]
      · exact h
      · have := App.Pop_navStack_length a
        by_cases h1 : a.navStack.length ≤ 1
        · rw [App.Pop_of_le a h1]
          exact h
        · omega
  | pushView v => simp [App.Push_fst_navStack]
  | popView =>
      have := App.Pop_navStack_length a
      by_cases h1 : a.navStack.length ≤ 1
      · rw [App.Pop_of_le a h1]
        exact h
      · omega
  | deliver eff => rw [applyUIEffect_navStack]; exact h
  | dismissErr => exact h
  | dismissHlp => exact h
  | cancelCtx => exact h

theorem reachable_navStack_pos (s : AppState) (h : Reachable s) :
    0 < s.navStack.length := by
  induction h with
  | start => simp [startState, App.Push_fst_navStack]
  | step hr hs ih => exact Step.navStack_pos hs ih

/-- C1: after the root view is pushed at startup, no sequence of push/pop
operations (or any other step of the engine) ever empties the navigation
stack, and Pop on a stack with exactly one element returns the state
completely unchanged (stack, pages, header) and spawns nothing. -/
theorem c1_stack_never_empty (s : AppState) (h : Reachable s) :
    s.navStack ≠ [] ∧ (s.navStack.length = 1 → App.Pop s = (s, [])) := by
  refine ⟨?_, fun h1 => App.Pop_of_le s (by omega)⟩
  have hp := reachable_navStack_pos s h
  intro hE
  rw [hE] at hp
  simp at hp

/-- Witness for C1 at the startup state itself. -/
theorem c1_stack_never_empty_witness :
    startState.navStack ≠ [] ∧
      (startState.navStack.length = 1 → App.Pop startState = (startState, [])) :=
  c1_stack_never_empty startState Reachable.start

theorem pushAll_navStack (vs : List View) (a : AppState) :
    (pushAll a vs).navStack = a.navStack ++ vs := by
  induction vs generalizing a with
  | nil => simp [pushAll]
  | cons v ws ih =>
      have h0 : pushAll a (v :: ws) = pushAll (App.Push a v).1 ws := rfl
      rw [h0, ih, App.Push_fst_navStack]
      simp

theorem pushAll_headerText (vs : List View) (a : AppState) (h : vs ≠ []) :
    (pushAll a vs).headerText = headerLead ++ breadcrumb (a.navStack ++ vs) := by
  induction vs generalizing a with
  | nil => cases h rfl
  | cons v ws ih =>
      cases ws with
      | nil => simpa [pushAll] using App.Push_fst_headerText a v
      | cons w ws2 =>
          have h0 : pushAll a (v :: w :: ws2) = pushAll (App.Push a v).1 (w :: ws2) := rfl
          rw [h0, ih _ (by simp), App.Push_fst_navStack]
          simp

/-- C2: after any sequence of pushes of views P1..Pn (from the empty
NewApp state), the breadcrumb is the Name values in stack order joined
with the separator, and the header shows it after the fixed lead text;
after a pop that removes an element (depth at least 2), the breadcrumb is
the same join with the last name removed. -/
theorem c2_breadcrumb_correct (vs : List View) (hne : vs ≠ []) :
    breadcrumb (pushAll initialState vs).navStack
        = String.intercalate (" > ") (vs.map View.name)
    ∧ (pushAll initialState vs).headerText
        = headerLead ++ String.intercalate (" > ") (vs.map View.name)
    ∧ (2 ≤ vs.length →
        breadcrumb (App.Pop (pushAll initialState vs)).1.navStack
            = String.intercalate (" > ") ((vs.map View.name).dropLast)
          ∧ (App.Pop (pushAll initialState vs)).1.headerText
            = headerLead ++ String.intercalate (" > ") ((vs.map View.name).dropLast)) := by
  have hs : (pushAll initialState vs).navStack = vs := by
    rw [pushAll_navStack]
    rfl
  refine ⟨by rw [hs]; rfl, ?_, ?_⟩
  · rw [pushAll_headerText vs initialState hne]
    rfl
  · intro h2
    have hlen : 1 < (pushAll initialState vs).navStack.length := by rw [hs]; omega
    constructor
    · rw [App.Pop_fst_navStack _ hlen, hs]
      unfold breadcrumb
      rw [List.map_dropLast]
    · rw [App.Pop_fst_headerText _ hlen, hs]
      unfold breadcrumb
      rw [List.map_dropLast]

/-- Witness for C2 with two concrete views. -/
theorem c2_breadcrumb_correct_witness :
    breadcrumb (pushAll initialState [accountsView, accountsView]).navStack
        = String.intercalate (" > ") (["Accounts", "Accounts"])
    ∧ breadcrumb (App.Pop (pushAll initialState [accountsView, accountsView])).1.navStack
        = String.intercalate (" > ") (["Accounts"]) := by
  have h := c2_breadcrumb_correct [accountsView, accountsView] (by simp)
  exact ⟨h.1, (h.2.2 (by simp)).1⟩

/-- First page with the given name in the registry, if any. -/
def lookupPage : List Page → String → Option Surface
  | [], _ => none
  | p :: ps, n => if p.name = n then some p.surface else lookupPage ps n

theorem removeFirstPage_sublist (ps : List Page) (n : String) :
    (removeFirstPage ps n).Sublist ps := by
  induction ps with
  | nil => simp [removeFirstPage]
  | cons p ps ih =>
      unfold removeFirstPage
      split
      · exact List.sublist_cons_self p ps
      · exact List.Sublist.cons₂ p ih

theorem lookupPage_removeFirstPage (ps : List Page) (n1 n2 : String) (h : n1 ≠ n2) :
    lookupPage (removeFirstPage ps n1) n2 = lookupPage ps n2 := by
  induction ps with
  | nil => rfl
  | cons p ps ih =>
      simp only [removeFirstPage]
      by_cases h1 : p.name = n1
      · rw [if_pos h1]
        have h2 : p.name ≠ n2 := by rw [h1]; exact h
        conv_rhs => rw [lookupPage]
        rw [if_neg h2]
      · rw [if_neg h1]
        simp only [lookupPage]
        by_cases h2 : p.name = n2
        · rw [if_pos h2, if_pos h2]
        · rw [if_neg h2, if_neg h2]
          exact ih

theorem switchToPage_filter_nil (ps : List Page) (n : String)
    (h : ∀ q ∈ ps, q.name ≠ n) :
    (switchToPage ps n).filter (fun p => p.visible) = [] := by
  induction ps with
  | nil => rfl
  | cons p ps ih =>
      have hp : p.name ≠ n := h p (by simp)
      have hrest : ∀ q ∈ ps, q.name ≠ n := fun q hq => h q (by simp [hq])
      simp only [switchToPage, List.map_cons, List.filter_cons]
      rw [if_neg (by simp [hp])]
      exact ih hrest

theorem frontSurface_switchToPage (ps : List Page) (n : String)
    (hn : (ps.map Page.name).Nodup) :
    frontSurface (switchToPage ps n) = lookupPage ps n := by
  induction ps with
  | nil => rfl
  | cons p ps ih =>
      rw [List.map_cons, List.nodup_cons] at hn
      unfold lookupPage
      by_cases hp : p.name = n
      · rw [if_pos hp]
        have hrest : ∀ q ∈ ps, q.name ≠ n := by
          intro q hq hqn
          apply hn.1
          have hpq : p.name = q.name := by rw [hp, hqn]
          rw [hpq]
          exact List.mem_map_of_mem Page.name hq
        unfold frontSurface
        simp only [switchToPage, List.map_cons, List.filter_cons]
        rw [if_pos (by simp [hp])]
        have h0 := switchToPage_filter_nil ps n hrest
        simp only [switchToPage] at h0
        rw [h0]
        rfl
      · rw [if_neg hp]
        unfold frontSurface
        simp only [switchToPage, List.map_cons, List.filter_cons]
        rw [if_neg (by simp [hp])]
        exact ih hn.2

theorem frontSurface_append_visible (ps : List Page) (p : Page) (h : p.visible = true) :
    frontSurface (ps ++ [p]) = some p.surface := by
  unfold frontSurface
  rw [List.filter_append]
  simp [List.filter, h]

/-- The freshly added and switched-to page is the frontmost surface. -/
theorem frontSurface_switch_add (ps : List Page) (n : String) (s : Surface) (vis : Bool) :
    frontSurface (switchToPage (addPage ps n s vis) n) = some s := by
  unfold addPage switchToPage
  rw [List.map_append]
  have := frontSurface_append_visible
      ((removeFirstPage ps n).map (fun p => { p with visible := p.name = n }))
      { name := n, surface := s, visible := (true : Bool) } rfl
  simpa using this

/-- The error or help modal just added with AddPage(..., visible = true)
is the frontmost surface. -/
theorem frontSurface_addPage (ps : List Page) (n : String) (s : Surface) :
    frontSurface (addPage ps n s true) = some s := by
  unfold addPage
  exact frontSurface_append_visible _ _ rfl

/-- C3: Push is total and, for every state and view: it appends the view
to the stack, makes the view the frontmost (visible) surface, recomputes
the header from the breadcrumb of the new stack, and spawns exactly one
RefreshTask targeting the view. A failing refresh of that task only hands
a queued error-modal effect to the UI thread, and showing that modal
leaves the navigation stack (hence the push) intact. -/
theorem c3_push_spec (a : AppState) (v : View) :
    ((App.Push a v).1).navStack = a.navStack ++ [v]
    ∧ frontSurface ((App.Push a v).1).pages = some (Surface.widget v.renderId)
    ∧ ((App.Push a v).1).headerText = headerLead ++ breadcrumb (a.navStack ++ [v])
    ∧ (App.Push a v).2 = [{ target := v }]
    ∧ (∀ (m : String) (c2 : Bool),
        UIEffect.queueShowError m ∈ (runRefreshTask false false c2 (some m)).2)
    ∧ (∀ (s : AppState) (m : String),
        (App.ShowError s m).navStack = s.navStack
        ∧ frontSurface (App.ShowError s m).pages
            = some (Surface.errorModal ("Error: " ++ m))) := by
  refine ⟨rfl, ?_, rfl, rfl, ?_, ?_⟩
  · exact frontSurface_switch_add a.pages (pageName (a.navStack ++ [v]).length)
      (Surface.widget v.renderId) true
  · intro m c2
    simp [runRefreshTask]
  · intro s m
    exact ⟨rfl, frontSurface_addPage s.pages ("error") (Surface.errorModal ("Error: " ++ m))⟩

/-- Well-formedness of the pages registry relative to the stack: page
names are unique, the per-depth page names are pairwise distinct, and the
page registered for depth i+1 holds the primitive of the view at stack
index i. This holds for every state the running application reaches. -/
def pagesInv (a : AppState) : Prop :=
  (a.pages.map Page.name).Nodup
  ∧ (∀ i, i < a.navStack.length → ∀ j, j < a.navStack.length → i ≠ j →
      pageName (i+1) ≠ pageName (j+1))
  ∧ ∀ i, (h : i < a.navStack.length) →
      lookupPage a.pages (pageName (i+1)) = some (Surface.widget (a.navStack[i]).renderId)

/-- C4: on a stack deeper than one (with a well-formed pages registry),
Pop removes exactly the top element, spawns no RefreshTask, and the
frontmost surface becomes the primitive of the new top view — the same
primitive (and thus the same loaded data) it had before, untouched. -/
theorem c4_pop_spec (a : AppState) (h1 : 1 < a.navStack.length) (h2 : pagesInv a) :
    (App.Pop a).1.navStack = a.navStack.dropLast
    ∧ (App.Pop a).2 = []
    ∧ (∃ v, (App.Pop a).1.navStack.getLast? = some v
        ∧ frontSurface (App.Pop a).1.pages = some (Surface.widget v.renderId)) := by
  obtain ⟨hnd, hinj, hlook⟩ := h2
  refine ⟨App.Pop_fst_navStack a h1, App.Pop_snd a, ?_⟩
  have hlt : a.navStack.length - 2 < a.navStack.length := by omega
  refine ⟨a.navStack[a.navStack.length - 2], ?_, ?_⟩
  · rw [App.Pop_fst_navStack a h1, List.getLast?_dropLast, if_neg (by omega)]
    exact List.getElem?_eq_getElem hlt
  · have hpages : (App.Pop a).1.pages
        = switchToPage (removeFirstPage a.pages (pageName a.navStack.length))
            (pageName a.navStack.dropLast.length) := by
      unfold App.Pop
      rw [if_neg (by omega)]
      rfl
    rw [hpages, List.length_dropLast]
    rw [frontSurface_switchToPage _ _
      (List.Nodup.sublist (List.Sublist.map Page.name (removeFirstPage_sublist _ _)) hnd)]
    have hne : pageName a.navStack.length ≠ pageName (a.navStack.length - 1) := by
      have := hinj (a.navStack.length - 1) (by omega) (a.navStack.length - 2) (by omega)
        (by omega)
      have e1 : a.navStack.length - 1 + 1 = a.navStack.length := by omega
      have e2 : a.navStack.length - 2 + 1 = a.navStack.length - 1 := by omega
      rw [e1, e2] at this
      exact this
    rw [lookupPage_removeFirstPage _ _ _ hne]
    have := hlook (a.navStack.length - 2) hlt
    have e2 : a.navStack.length - 2 + 1 = a.navStack.length - 1 := by omega
    rw [e2] at this
    exact this

/-- A concrete drill-down child view used in witnesses. -/
def childView : View :=
  { name := "Child", renderId := 1, buf := ["cached record"], handleInput := fun e => some e }

/-- A concrete two-deep state: root pushed at startup, one child pushed. -/
def twoDeepState : AppState := (App.Push startState childView).1

/-- Witness for C4 at the concrete two-deep state. -/
theorem c4_pop_spec_witness :
    (App.Pop twoDeepState).1.navStack = twoDeepState.navStack.dropLast
    ∧ (App.Pop twoDeepState).2 = []
    ∧ (∃ v, (App.Pop twoDeepState).1.navStack.getLast? = some v
        ∧ frontSurface (App.Pop twoDeepState).1.pages = some (Surface.widget v.renderId)) :=
  c4_pop_spec twoDeepState (by decide)
    (by unfold pagesInv; exact ⟨by decide, by decide, by decide⟩)

/-- A Honeybadger fault record, restricted to the fields the faults table
reads (hbapi.Fault). The last-notice timestamp is carried as its already
formatted text. -/
structure Fault where
  id : Int
  klass : String
  message : String
  environment : String
  noticesCount : Int
  resolved : Bool
  ignored : Bool
  lastNoticeAt : Option String
deriving DecidableEq, Repr

/-- truncateString of tui/helpers.go: UTF-8 aware truncation with an
ellipsis, mirroring the rune-slice logic of the Go code. -/
def truncateString (s : String) (maxLen : Int) : String :=
  if maxLen ≤ 0 then ""
  else if (s.data.length : Int) ≤ maxLen then s
  else if maxLen ≤ 3 then String.mk (s.data.take maxLen.toNat)
  else String.mk (s.data.take (maxLen - 3).toNat) ++ "..."

/-- The status column of the faults table: Active unless Resolved, which
wins over Ignored. -/
def faultStatus (f : Fault) : String :=
  if f.resolved then "Resolved" else if f.ignored then "Ignored" else "Active"

/-- One body row of the faults table, as built by FaultsView.renderTable. -/
def faultRow (f : Fault) : List String :=
  [toString f.id, f.klass, truncateString f.message 40, f.environment,
   toString f.noticesCount, faultStatus f, f.lastNoticeAt.getD ("-")]

/-- FaultsView (tui/faults.go): project id parameter, the faults data
buffer, and the body rows currently shown in its table. -/
structure FaultsView where
  projectID : Int
  faults : List Fault
  tableRows : List (List String)
deriving DecidableEq, Repr

/-- FaultsView.Refresh: call the data client (the fetch argument is its
outcome); on error wrap and return the error without touching the view;
on success replace the buffer and enqueue the repaint (renderTable). -/
def FaultsView.Refresh (v : FaultsView) (fetch : Except String (List Fault)) :
    FaultsView × Option String :=
  match fetch with
  | Except.error e => (v, some ("failed to list faults: " ++ e))
  | Except.ok results => ({ v with faults := results }, none)

/-- The queued repaint of FaultsView: project the buffer into table rows. -/
def FaultsView.renderTable (v : FaultsView) : FaultsView :=
  { v with tableRows := v.faults.map faultRow }

/-- A Honeybadger project record, restricted to the fields the projects
table reads (hbapi.Project). -/
structure Project where
  id : Int
  name : String
  active : Bool
  faultCount : Int
  unresolvedFaultCount : Int
deriving DecidableEq, Repr

/-- One body row of the projects table. -/
def projectRow (p : Project) : List String :=
  [toString p.id, p.name, if p.active then "Yes" else "No",
   toString p.faultCount, toString p.unresolvedFaultCount]

/-- ProjectsView (tui/projects.go): account id parameter, the projects
data buffer, and the rows currently shown. -/
structure ProjectsView where
  accountID : String
  projects : List Project
  tableRows : List (List String)
deriving DecidableEq, Repr

/-- ProjectsView.Refresh, same early-return-on-error shape as the faults
view. -/
def ProjectsView.Refresh (v : ProjectsView) (fetch : Except String (List Project)) :
    ProjectsView × Option String :=
  match fetch with
  | Except.error e => (v, some ("failed to list projects: " ++ e))
  | Except.ok results => ({ v with projects := results }, none)

/-- The queued repaint of ProjectsView, including the empty-state row. -/
def ProjectsView.renderTable (v : ProjectsView) : ProjectsView :=
  if v.projects = [] then { v with tableRows := [["No projects found"]] }
  else { v with tableRows := v.projects.map projectRow }

theorem lookupPage_eq_none_iff (ps : List Page) (n : String) :
    lookupPage ps n = none ↔ ∀ q ∈ ps, q.name ≠ n := by
  induction ps with
  | nil => simp [lookupPage]
  | cons p ps ih =>
      simp only [lookupPage]
      by_cases hp : p.name = n
      · rw [if_pos hp]
        simp [hp]
      · rw [if_neg hp]
        rw [ih]
        constructor
        · intro h q hq
          rcases List.mem_cons.mp hq with h1 | h1
          · rw [h1]; exact hp
          · exact h q h1
        · intro h q hq
          exact h q (List.mem_cons_of_mem p hq)

theorem removeFirstPage_of_not_mem (ps : List Page) (n : String)
    (h : ∀ q ∈ ps, q.name ≠ n) :
    removeFirstPage ps n = ps := by
  induction ps with
  | nil => rfl
  | cons p ps ih =>
      simp only [removeFirstPage]
      rw [if_neg (h p (by simp))]
      rw [ih (fun q hq => h q (List.mem_cons_of_mem p hq))]

theorem removeFirstPage_append_named (ps : List Page) (p : Page)
    (h : ∀ q ∈ ps, q.name ≠ p.name) :
    removeFirstPage (ps ++ [p]) p.name = ps := by
  induction ps with
  | nil => simp [removeFirstPage]
  | cons q ps ih =>
      simp only [List.cons_append, removeFirstPage]
      rw [if_neg (h q (by simp))]
      have hrec := ih (fun r hr => h r (List.mem_cons_of_mem q hr))
      simp only [List.append_eq]
      rw [hrec]

/-- Showing then dismissing the error modal restores the original pages
(when no error page was already present). -/
theorem dismiss_ShowError (a : AppState) (m : String)
    (h : lookupPage a.pages ("error") = none) :
    App.dismissError (App.ShowError a m) = a := by
  have hnm := (lookupPage_eq_none_iff a.pages ("error")).mp h
  unfold App.dismissError App.ShowError removePage addPage
  rw [removeFirstPage_of_not_mem a.pages ("error") hnm]
  have := removeFirstPage_append_named a.pages
      { name := "error", surface := Surface.errorModal ("Error: " ++ m), visible := true } hnm
  simp only at this
  rw [this]

/-- C5: a failing refresh returns the wrapped client error and leaves the
view — its data buffer and its displayed rows — exactly as it was, for
both embedded concrete views; the failure reaches the user only as the
frontmost dismissible error modal, and dismissing it restores the pages. -/
theorem c5_refresh_isolation (fv : FaultsView) (pv : ProjectsView)
    (emsg : String) (a : AppState) :
    FaultsView.Refresh fv (Except.error emsg) = (fv, some ("failed to list faults: " ++ emsg))
    ∧ ProjectsView.Refresh pv (Except.error emsg)
        = (pv, some ("failed to list projects: " ++ emsg))
    ∧ frontSurface (App.ShowError a ("failed to list faults: " ++ emsg)).pages
        = some (Surface.errorModal ("Error: " ++ ("failed to list faults: " ++ emsg)))
    ∧ (lookupPage a.pages ("error") = none →
        App.dismissError (App.ShowError a ("failed to list faults: " ++ emsg)) = a) := by
  refine ⟨rfl, rfl, ?_, fun h => dismiss_ShowError a _ h⟩
  exact frontSurface_addPage a.pages ("error") _

/-- Witness for C5 at concrete views, a concrete error and the startup
state. -/
theorem c5_refresh_isolation_witness :
    FaultsView.Refresh { projectID := 7, faults := [], tableRows := [] }
        (Except.error ("connection refused"))
      = ({ projectID := 7, faults := [], tableRows := [] },
         some ("failed to list faults: connection refused"))
    ∧ App.dismissError
        (App.ShowError startState ("failed to list faults: connection refused"))
      = startState := by
  have h := c5_refresh_isolation { projectID := 7, faults := [], tableRows := [] }
      { accountID := "A1", projects := [], tableRows := [] } ("connection refused") startState
  exact ⟨h.1, h.2.2.2 (by decide)⟩

/-- The zero rune carried by non-rune tcell key events. -/
def nulChar : Char := Char.ofNat 0

def escEvent : KeyEvent := { key := KeyCode.escape, ch := nulChar }

def qEvent : KeyEvent := { key := KeyCode.runeKey, ch := 'q' }

def rEvent : KeyEvent := { key := KeyCode.runeKey, ch := 'r' }

def ctrlCEvent : KeyEvent := { key := KeyCode.ctrlC, ch := nulChar }

/-- The startup state after the lifecycle context has been cancelled. -/
def canceledState : AppState := { startState with ctxCanceled := true }

theorem App.Pop_stopped (a : AppState) : (App.Pop a).1.stopped = a.stopped := by
  unfold App.Pop
  split <;> rfl

theorem App.dispatch_escape (a : AppState) (c : Char) (o : Option String) :
    App.dispatch a { key := KeyCode.escape, ch := c } o =
      if 1 < a.navStack.length then
        { state := (App.Pop a).1, returned := none, forwarded := false, refreshCalled := false }
      else App.runeSwitch a { key := KeyCode.escape, ch := c } o := rfl

theorem App.dispatch_left (a : AppState) (c : Char) (o : Option String) :
    App.dispatch a { key := KeyCode.left, ch := c } o =
      if 1 < a.navStack.length then
        { state := (App.Pop a).1, returned := none, forwarded := false, refreshCalled := false }
      else App.runeSwitch a { key := KeyCode.left, ch := c } o := rfl

theorem App.dispatch_ctrlC (a : AppState) (c : Char) (o : Option String) :
    App.dispatch a { key := KeyCode.ctrlC, ch := c } o =
      { state := { a with stopped := true }, returned := none, forwarded := false,
        refreshCalled := false } := rfl

theorem App.dispatch_runeKey (a : AppState) (c : Char) (o : Option String) :
    App.dispatch a { key := KeyCode.runeKey, ch := c } o =
      App.runeSwitch a { key := KeyCode.runeKey, ch := c } o := rfl

theorem App.dispatch_enter (a : AppState) (c : Char) (o : Option String) :
    App.dispatch a { key := KeyCode.enter, ch := c } o =
      App.runeSwitch a { key := KeyCode.enter, ch := c } o := rfl

theorem App.dispatch_right (a : AppState) (c : Char) (o : Option String) :
    App.dispatch a { key := KeyCode.right, ch := c } o =
      App.runeSwitch a { key := KeyCode.right, ch := c } o := rfl

theorem App.dispatch_other (a : AppState) (c : Char) (o : Option String) :
    App.dispatch a { key := KeyCode.otherKey, ch := c } o =
      App.runeSwitch a { key := KeyCode.otherKey, ch := c } o := rfl

theorem App.ShowError_stopped (a : AppState) (m : String) :
    (App.ShowError a m).stopped = a.stopped := rfl

theorem App.ShowHelp_stopped (a : AppState) : (App.ShowHelp a).stopped = a.stopped := rfl

/-- C6 counterexample: with the lifecycle token already cancelled, the
manual reload key still invokes Refresh and still performs the UI-facing
error callback — the manual-reload path performs no token check at
either point. -/
theorem c6_counterexample :
    canceledState.ctxCanceled = true
    ∧ (App.dispatch canceledState rEvent (some ("request failed"))).refreshCalled = true
    ∧ frontSurface (App.dispatch canceledState rEvent (some ("request failed"))).state.pages
        = some (Surface.errorModal ("Error: request failed")) :=
  ⟨rfl, rfl, rfl⟩

/-- C6 as amended: the goroutine spawned by Push checks the token before
invoking Refresh (doing nothing when already cancelled), drops the queued
error callback when the token is cancelled at the second check, and drops
the final draw when cancelled at the third; the manual reload key, in
contrast, invokes Refresh through the input-capture closure regardless of
the token. -/
theorem c6_push_task_token_checks (c0 c1 c2 : Bool) (res : Option String)
    (a : AppState) (e : KeyEvent) (o : Option String) :
    (c0 = true → runRefreshTask c0 c1 c2 res = (false, []))
    ∧ (∀ m, res = some m → c1 = true → (runRefreshTask c0 c1 c2 res).2 = [])
    ∧ (c2 = true → UIEffect.draw ∉ (runRefreshTask c0 c1 c2 res).2)
    ∧ (e.key = KeyCode.runeKey → e.ch = 'r' → 0 < a.navStack.length →
        (App.dispatch a e o).refreshCalled = true) := by
  refine ⟨?_, ?_, ?_, ?_⟩
  · intro h
    simp [runRefreshTask, h]
  · intro m hm hc1
    subst hm
    cases c0 <;> simp [runRefreshTask, hc1]
  · intro h
    cases c0 <;> cases c1 <;> cases res <;> simp [runRefreshTask, h]
  · intro hk hch hlen
    rcases e with ⟨k, c⟩
    have hk2 : k = KeyCode.runeKey := hk
    have hc2 : c = 'r' := hch
    subst hk2
    subst hc2
    rw [App.dispatch_runeKey]
    unfold App.runeSwitch
    rw [if_neg (show ¬(({ key := KeyCode.runeKey, ch := 'r' } : KeyEvent).ch = 'q') from
      by decide)]
    rw [if_pos (show ({ key := KeyCode.runeKey, ch := 'r' } : KeyEvent).ch = 'r' from rfl)]
    rw [if_pos hlen]

/-- Witness for the amended C6 at concrete token values and the concrete
cancelled state. -/
theorem c6_push_task_token_checks_witness :
    runRefreshTask true true true (some ("x")) = (false, [])
    ∧ (runRefreshTask true true true (some ("x"))).2 = []
    ∧ UIEffect.draw ∉ (runRefreshTask true true true (some ("x"))).2
    ∧ (App.dispatch canceledState rEvent none).refreshCalled = true := by
  have h := c6_push_task_token_checks true true true (some ("x")) canceledState rEvent none
  exact ⟨h.1 rfl, h.2.1 "x" rfl rfl, h.2.2.1 rfl, h.2.2.2 rfl rfl (by decide)⟩

theorem runeSwitch_global (a : AppState) (e : KeyEvent) (o : Option String)
    (hc : e.ch = 'q' ∨ e.ch = 'r' ∨ e.ch = '?') :
    (App.runeSwitch a e o).forwarded = false ∧ (App.runeSwitch a e o).returned = none := by
  unfold App.runeSwitch
  rcases hc with h | h | h <;> rw [h]
  · rw [if_pos rfl]
    split <;> exact ⟨rfl, rfl⟩
  · rw [if_neg (by decide), if_pos rfl]
    split <;> exact ⟨rfl, rfl⟩
  · rw [if_neg (by decide), if_neg (by decide), if_pos rfl]
    exact ⟨rfl, rfl⟩

/-- C7 amended: the rune-class global keys (q quit, r refresh, ? help)
are always consumed by the dispatcher and never forwarded, at every
depth; Escape and Left are consumed (popping) only at depth above one,
and Ctrl+C is always consumed. (At depth one, Escape and Left fall
through to the view — see the counterexample.) -/
theorem c7_global_keys (a : AppState) (e : KeyEvent) (o : Option String) :
    (e.ch = 'q' ∨ e.ch = 'r' ∨ e.ch = '?' →
      (App.dispatch a e o).forwarded = false ∧ (App.dispatch a e o).returned = none)
    ∧ (e.key = KeyCode.escape ∨ e.key = KeyCode.left → 1 < a.navStack.length →
      (App.dispatch a e o).forwarded = false
      ∧ (App.dispatch a e o).state = (App.Pop a).1
      ∧ (App.dispatch a e o).returned = none)
    ∧ (e.key = KeyCode.ctrlC →
      (App.dispatch a e o).forwarded = false ∧ (App.dispatch a e o).returned = none) := by
  refine ⟨?_, ?_, ?_⟩
  · intro hc
    unfold App.dispatch
    split
    · split
      · exact ⟨rfl, rfl⟩
      · exact runeSwitch_global a e o hc
    · split
      · exact ⟨rfl, rfl⟩
      · exact runeSwitch_global a e o hc
    · exact ⟨rfl, rfl⟩
    · exact runeSwitch_global a e o hc
  · intro hk hlen
    unfold App.dispatch
    rcases hk with h | h <;> rw [h] <;> rw [if_pos hlen] <;> exact ⟨rfl, rfl, rfl⟩
  · intro hk
    unfold App.dispatch
    rw [hk]
    exact ⟨rfl, rfl⟩

/-- C7 counterexample: at depth one, an Escape key event is not handled
by the dispatcher; it falls through both switches and is forwarded to
HandleInput of the top view. -/
theorem c7_counterexample :
    startState.navStack.length = 1
    ∧ (App.dispatch startState escEvent none).forwarded = true :=
  ⟨rfl, rfl⟩

/-- Witness for the amended C7 at concrete events and a two-deep state. -/
theorem c7_global_keys_witness :
    (App.dispatch twoDeepState qEvent none).forwarded = false
    ∧ (App.dispatch twoDeepState qEvent none).returned = none
    ∧ (App.dispatch twoDeepState escEvent none).state = (App.Pop twoDeepState).1
    ∧ (App.dispatch twoDeepState ctrlCEvent none).forwarded = false := by
  have h1 := c7_global_keys twoDeepState qEvent none
  have h2 := c7_global_keys twoDeepState escEvent none
  have h3 := c7_global_keys twoDeepState ctrlCEvent none
  exact ⟨(h1.1 (Or.inl rfl)).1, (h1.1 (Or.inl rfl)).2,
    (h2.2.1 (Or.inl rfl) (by decide)).2.1, (h3.2.2 rfl).1⟩

theorem runeSwitch_stopped (a : AppState) (e : KeyEvent) (o : Option String)
    (h : a.stopped = false) :
    ((App.runeSwitch a e o).state.stopped = true
      ↔ (e.ch = 'q' ∧ a.navStack.length ≤ 1)) := by
  unfold App.runeSwitch
  by_cases hq : e.ch = 'q'
  · rw [if_pos hq]
    by_cases hl : 1 < a.navStack.length
    · rw [if_pos hl]
      simp [App.Pop_stopped, h, hq]
      omega
    · rw [if_neg hl]
      simp [hq]
      omega
  · rw [if_neg hq]
    by_cases hr : e.ch = 'r'
    · rw [if_pos hr]
      split
      · cases o <;> simp [App.ShowError_stopped, h, hq]
      · simp [h, hq]
    · rw [if_neg hr]
      by_cases hh : e.ch = '?'
      · rw [if_pos hh]
        simp [App.ShowHelp_stopped, h, hq]
      · rw [if_neg hh]
        split <;> simp [h, hq]

/-- C8 amended: under the input-capture closure, the process stops
exactly when Ctrl+C arrives or when the quit rune arrives at depth one;
the quit rune at greater depth pops instead. (Ctrl+C is a second exit
path not limited to depth one — the claim as stated is refuted by the
counterexample.) -/
theorem c8_quit_spec (a : AppState) (e : KeyEvent) (o : Option String)
    (h : a.stopped = false) :
    ((App.dispatch a e o).state.stopped = true
      ↔ (e.key = KeyCode.ctrlC ∨ (e.ch = 'q' ∧ a.navStack.length ≤ 1)))
    ∧ (e.key = KeyCode.runeKey → e.ch = 'q' → 1 < a.navStack.length →
        (App.dispatch a e o).state = (App.Pop a).1) := by
  constructor
  · rcases e with ⟨k, c⟩
    cases k with
    | escape =>
        rw [App.dispatch_escape]
        by_cases hl : 1 < a.navStack.length
        · rw [if_pos hl]
          constructor
          · intro hx
            rw [App.Pop_stopped, h] at hx
            exact absurd hx (by decide)
          · rintro (hx | hx)
            · exact KeyCode.noConfusion hx
            · exact absurd hx.2 (by omega)
        · rw [if_neg hl]
          rw [runeSwitch_stopped a _ o h]
          constructor
          · intro hx
            exact Or.inr hx
          · rintro (hx | hx)
            · exact KeyCode.noConfusion hx
            · exact hx
    | left =>
        rw [App.dispatch_left]
        by_cases hl : 1 < a.navStack.length
        · rw [if_pos hl]
          constructor
          · intro hx
            rw [App.Pop_stopped, h] at hx
            exact absurd hx (by decide)
          · rintro (hx | hx)
            · exact KeyCode.noConfusion hx
            · exact absurd hx.2 (by omega)
        · rw [if_neg hl]
          rw [runeSwitch_stopped a _ o h]
          constructor
          · intro hx
            exact Or.inr hx
          · rintro (hx | hx)
            · exact KeyCode.noConfusion hx
            · exact hx
    | ctrlC =>
        rw [App.dispatch_ctrlC]
        constructor
        · intro _
          exact Or.inl rfl
        · intro _
          rfl
    | enter =>
        rw [App.dispatch_enter, runeSwitch_stopped a _ o h]
        constructor
        · intro hx
          exact Or.inr hx
        · rintro (hx | hx)
          · exact KeyCode.noConfusion hx
          · exact hx
    | right =>
        rw [App.dispatch_right, runeSwitch_stopped a _ o h]
        constructor
        · intro hx
          exact Or.inr hx
        · rintro (hx | hx)
          · exact KeyCode.noConfusion hx
          · exact hx
    | runeKey =>
        rw [App.dispatch_runeKey, runeSwitch_stopped a _ o h]
        constructor
        · intro hx
          exact Or.inr hx
        · rintro (hx | hx)
          · exact KeyCode.noConfusion hx
          · exact hx
    | otherKey =>
        rw [App.dispatch_other, runeSwitch_stopped a _ o h]
        constructor
        · intro hx
          exact Or.inr hx
        · rintro (hx | hx)
          · exact KeyCode.noConfusion hx
          · exact hx
  · intro hk hq hlen
    rcases e with ⟨k, c⟩
    have hk2 : k = KeyCode.runeKey := hk
    have hc2 : c = 'q' := hq
    subst hk2
    subst hc2
    rw [App.dispatch_runeKey]
    unfold App.runeSwitch
    rw [if_pos (show ({ key := KeyCode.runeKey, ch := 'q' } : KeyEvent).ch = 'q' from rfl)]
    rw [if_pos hlen]

/-- C8 counterexample: at depth two, Ctrl+C stops the application — a
controller-level exit path taken while the stack depth is not one, and
without popping. -/
theorem c8_counterexample :
    twoDeepState.navStack.length = 2
    ∧ twoDeepState.stopped = false
    ∧ (App.dispatch twoDeepState ctrlCEvent none).state.stopped = true
    ∧ (App.dispatch twoDeepState ctrlCEvent none).state.navStack.length = 2 :=
  ⟨rfl, rfl, rfl, rfl⟩

/-- Witness for the amended C8: the quit rune at depth two pops and does
not stop; at depth one it stops. -/
theorem c8_quit_spec_witness :
    ((App.dispatch twoDeepState qEvent none).state.stopped = true
      ↔ (qEvent.key = KeyCode.ctrlC ∨ (qEvent.ch = 'q' ∧ twoDeepState.navStack.length ≤ 1)))
    ∧ (App.dispatch twoDeepState qEvent none).state = (App.Pop twoDeepState).1 := by
  have h := c8_quit_spec twoDeepState qEvent none rfl
  exact ⟨h.1, h.2 rfl rfl (by decide)⟩

theorem runeSwitch_refreshCalled (a : AppState) (e : KeyEvent) (o : Option String) :
    (App.runeSwitch a e o).refreshCalled = true → e.ch = 'r' := by
  unfold App.runeSwitch
  by_cases hq : e.ch = 'q'
  · rw [if_pos hq]
    split <;> intro hx <;> cases hx
  · rw [if_neg hq]
    by_cases hr : e.ch = 'r'
    · intro _
      exact hr
    · rw [if_neg hr]
      by_cases hh : e.ch = '?'
      · rw [if_pos hh]
        intro hx
        cases hx
      · rw [if_neg hh]
        split <;> intro hx <;> cases hx

/-- C9 amended: Push hands the single refresh invocation to a spawned
task rather than running it in the input path (the task invokes Refresh
exactly when the token was clear at its first check), and that task
delivers at most one error callback through the render queue; the only
way Refresh runs inside the input-capture closure (the UI thread) is the
manual reload rune. (The claim as stated — off the UI thread for every
trigger — is refuted by the counterexample.) -/
theorem c9_offthread (a : AppState) (v : View) (c0 c1 c2 : Bool) (res : Option String)
    (e : KeyEvent) (o : Option String) :
    (App.Push a v).2 = [{ target := v }]
    ∧ ((runRefreshTask c0 c1 c2 res).1 = true ↔ c0 = false)
    ∧ ((runRefreshTask c0 c1 c2 res).2.filter
        (fun eff => match eff with
                    | UIEffect.queueShowError _ => true
                    | UIEffect.draw => false)).length ≤ 1
    ∧ ((App.dispatch a e o).refreshCalled = true → e.ch = 'r') := by
  refine ⟨rfl, ?_, ?_, ?_⟩
  · cases c0 <;> simp [runRefreshTask]
  · cases c0 <;> cases c1 <;> cases c2 <;> cases res <;> simp [runRefreshTask]
  · unfold App.dispatch
    split
    · split
      · intro hx
        cases hx
      · exact runeSwitch_refreshCalled a e o
    · split
      · intro hx
        cases hx
      · exact runeSwitch_refreshCalled a e o
    · intro hx
      cases hx
    · exact runeSwitch_refreshCalled a e o

/-- C9 counterexample: the manual reload rune runs Refresh inside the
input-capture closure — on the UI thread — and shows the failure modal
synchronously there, not through a queued render callback. -/
theorem c9_counterexample :
    (App.dispatch startState rEvent (some ("slow request failed"))).refreshCalled = true
    ∧ frontSurface (App.dispatch startState rEvent (some ("slow request failed"))).state.pages
        = some (Surface.errorModal ("Error: slow request failed")) :=
  ⟨rfl, rfl⟩

/-- Witness for the amended C9 at concrete values. -/
theorem c9_offthread_witness :
    (App.Push startState childView).2 = [{ target := childView }]
    ∧ ((runRefreshTask false false false (some ("x"))).1 = true ↔ (false : Bool) = false)
    ∧ rEvent.ch = 'r' := by
  have h := c9_offthread startState childView false false false (some ("x")) rEvent none
  exact ⟨h.1, h.2.1, h.2.2.2 rfl⟩

/-- C10: a Ctrl+C key event stops the application at every stack depth,
leaves the stack untouched (no pop), consumes the event and forwards
nothing to the view — an unconditional second terminate path. -/
theorem c10_ctrlc_spec (a : AppState) (e : KeyEvent) (o : Option String)
    (h : e.key = KeyCode.ctrlC) :
    (App.dispatch a e o).state = { a with stopped := true }
    ∧ (App.dispatch a e o).state.navStack = a.navStack
    ∧ (App.dispatch a e o).returned = none
    ∧ (App.dispatch a e o).forwarded = false := by
  unfold App.dispatch
  rw [h]
  exact ⟨rfl, rfl, rfl, rfl⟩

/-- Witness for C10 at a two-deep state: Ctrl+C stops even when the stack
depth is greater than one. -/
theorem c10_ctrlc_spec_witness :
    (App.dispatch twoDeepState ctrlCEvent none).state = { twoDeepState with stopped := true }
    ∧ (App.dispatch twoDeepState ctrlCEvent none).state.navStack = twoDeepState.navStack
    ∧ (App.dispatch twoDeepState ctrlCEvent none).returned = none
    ∧ (App.dispatch twoDeepState ctrlCEvent none).forwarded = false :=
  c10_ctrlc_spec twoDeepState ctrlCEvent none rfl

end HB
